import Mathlib

/-!
Verification of the registry and data-staging core of the repository
`ddddfang/cafe-with-comments` (a commented Caffe excerpt).

Embedded source files:
* `src/include/caffe/layer_factory.hpp` — `LayerRegistry` (map from type name
  to creator function, duplicate check, `CreateLayer`, `LayerTypeList`,
  `REGISTER_LAYER_CLASS` macro).
* `src/include/caffe/solver_factory.hpp` — `SolverRegistry`, structurally the
  same with "Solver" in place of "Layer".
* `src/src/caffe/layers/base_data_layer.cpp` — the prefetching pipeline:
  constructor, worker loop (`InternalThreadEntry`) and consumer step
  (`Forward_cpu`).
* `src/include/caffe/layers/input_layer.hpp` — `InputLayer` (no-op bodies).
-/

namespace CaffeSpec

/-! ## Registry model (`layer_factory.hpp`, `solver_factory.hpp`)

Both registries are `std::map<string, Creator>` singletons with identical
operations; the only differences are the creator signature and the word
"Layer"/"Solver" inside the fatal messages.  We model the map as an
association list of entries with unique keys (insertion goes only through
`addCreator`, which rejects duplicates), generic in the creator type `C` and
in the `kind` word used by the messages. -/

/-- Backing map `std::map<string, Creator>` (`layer_factory.hpp` line 59,
`solver_factory.hpp` line 61), modelled as the association list of its
entries. -/
structure Registry (C : Type) where
  entries : List (String × C)
deriving DecidableEq

variable {C : Type}

/-- Model of `registry.count(type)`: the number of entries whose key equals `t`
(0 or 1 in a `std::map`). -/
def countType (r : Registry C) (t : String) : Nat :=
  (r.entries.filter (fun e => e.1 == t)).length

/-- Read access `registry[type]` after a successful count check: the creator
bound to `t`, if any. -/
def lookupCreator (r : Registry C) (t : String) : Option C :=
  (r.entries.find? (fun e => e.1 == t)).map Prod.snd

/-- Model of `LayerTypeList` / `SolverTypeList` (`layer_factory.hpp` lines 86-94,
`solver_factory.hpp` lines 92-99): iterate over the map and collect every
key. -/
def typeList (r : Registry C) : List String :=
  r.entries.map Prod.fst

/-- The string-building loop of `LayerTypeListString` /
`SolverTypeListString`: first element bare, every later element preceded by
`", "`. -/
def joinTypes : List String → String
  | [] => ""
  | [t] => t
  | t :: t₂ :: ts => t ++ ", " ++ joinTypes (t₂ :: ts)

/-- Model of `LayerTypeListString` / `SolverTypeListString` (`layer_factory.hpp`
lines 101-111, `solver_factory.hpp` lines 108-118). -/
def typeListString (r : Registry C) : String :=
  joinTypes (typeList r)

/-- Model of `AddCreator` (`layer_factory.hpp` lines 67-72, `solver_factory.hpp`
lines 70-77): `CHECK_EQ(registry.count(type), 0)` aborts with the message
`"<kind> type <t> already registered."` when the name is present; otherwise
`registry[type] = creator` inserts the new binding.  The fatal `CHECK` is
rendered as `Except.error`. -/
def addCreator (kind : String) (r : Registry C) (t : String) (c : C) :
    Except String (Registry C) :=
  if countType r t = 0 then
    Except.ok ⟨r.entries ++ [(t, c)]⟩
  else
    Except.error (kind ++ " type " ++ t ++ " already registered.")

/-- The map as observable after a call to `AddCreator`: on success the
extended map; on the duplicate check the process aborts before
`registry[type] = creator` runs, so the map is left exactly as it was. -/
def applyAdd (kind : String) (r : Registry C) (t : String) (c : C) :
    Registry C :=
  match addCreator kind r t c with
  | Except.ok r2 => r2
  | Except.error _ => r

/-- A chain of `AddCreator` calls (one static `LayerRegisterer` /
`SolverRegisterer` per registered type), stopping at the first fatal
check. -/
def registerAll (kind : String) (r : Registry C) :
    List (String × C) → Except String (Registry C)
  | [] => Except.ok r
  | (t, c) :: rest =>
    match addCreator kind r t c with
    | Except.ok r2 => registerAll kind r2 rest
    | Except.error e => Except.error e

/-- Fields `param.type()` and `param.name()` of `LayerParameter`: the only fields the
factory reads. -/
structure LayerParameter where
  name : String
  type : String
deriving DecidableEq

/-- A constructed layer object: its concrete C++ class name together with the
parameter it was built from. -/
structure LayerInst where
  clsName : String
  param : LayerParameter
deriving DecidableEq

/-- Signature `shared_ptr<Layer<Dtype>> (*Creator)(const LayerParameter&)`
(`layer_factory.hpp` line 58). -/
abbrev LayerCreator := LayerParameter → LayerInst

/-- Field `param.type()` of `SolverParameter`: the only field the factory reads. -/
structure SolverParameter where
  type : String
deriving DecidableEq

/-- A constructed solver object: its concrete C++ class name together with the
parameter it was built from. -/
structure SolverInst where
  clsName : String
  param : SolverParameter
deriving DecidableEq

/-- Signature `Solver<Dtype>* (*Creator)(const SolverParameter&)`
(`solver_factory.hpp` line 58). -/
abbrev SolverCreator := SolverParameter → SolverInst

/-- Model of `CreateLayer` (`layer_factory.hpp` lines 75-84):
`CHECK_EQ(registry.count(type), 1)` aborts with
`"Unknown layer type: <t> (known types: <list>)"` when the name is absent;
otherwise `registry[type](param)` invokes the bound creator once and returns
its result. -/
def CreateLayer (r : Registry LayerCreator) (param : LayerParameter) :
    Except String LayerInst :=
  if countType r param.type = 1 then
    match lookupCreator r param.type with
    | some c => Except.ok (c param)
    | none => Except.error "unreachable: count 1 but no entry"
  else
    Except.error ("Unknown layer type: " ++ param.type ++ " (known types: "
      ++ typeListString r ++ ")")

/-- Model of `CreateSolver` (`solver_factory.hpp` lines 81-89), same shape as
`CreateLayer`. -/
def CreateSolver (r : Registry SolverCreator) (param : SolverParameter) :
    Except String SolverInst :=
  if countType r param.type = 1 then
    match lookupCreator r param.type with
    | some c => Except.ok (c param)
    | none => Except.error "unreachable: count 1 but no entry"
  else
    Except.error ("Unknown solver type: " ++ param.type ++ " (known types: "
      ++ typeListString r ++ ")")

/-- Factory `Creator_##type##Layer` generated by `REGISTER_LAYER_CLASS(type)`
(`layer_factory.hpp` lines 134-140): returns a newly constructed
`type##Layer` built from the given parameter. -/
def CreatorClassLayer (t : String) : LayerCreator :=
  fun param => ⟨t ++ "Layer", param⟩

/-- Factory `Creator_##type##Solver` generated by `REGISTER_SOLVER_CLASS(type)`
(`solver_factory.hpp` lines 146-153). -/
def CreatorClassSolver (t : String) : SolverCreator :=
  fun param => ⟨t ++ "Solver", param⟩

/-- Macro `REGISTER_LAYER_CLASS(type)` together with `REGISTER_LAYER_CREATOR`
(`layer_factory.hpp` lines 127-140): two static `LayerRegisterer` objects
register the generated creator under the bare name `#type` in the `float`
registry and in the `double` registry. -/
def RegisterLayerClass (t : String) (rf rd : Registry LayerCreator) :
    Except String (Registry LayerCreator × Registry LayerCreator) :=
  match addCreator "Layer" rf t (CreatorClassLayer t) with
  | Except.ok rf2 =>
    match addCreator "Layer" rd t (CreatorClassLayer t) with
    | Except.ok rd2 => Except.ok (rf2, rd2)
    | Except.error e => Except.error e
  | Except.error e => Except.error e

/-- Macro `REGISTER_SOLVER_CLASS(type)` together with `REGISTER_SOLVER_CREATOR`
(`solver_factory.hpp` lines 138-153). -/
def RegisterSolverClass (t : String) (rf rd : Registry SolverCreator) :
    Except String (Registry SolverCreator × Registry SolverCreator) :=
  match addCreator "Solver" rf t (CreatorClassSolver t) with
  | Except.ok rf2 =>
    match addCreator "Solver" rd t (CreatorClassSolver t) with
    | Except.ok rd2 => Except.ok (rf2, rd2)
    | Except.error e => Except.error e
  | Except.error e => Except.error e

/-! ## Prefetching pipeline model (`base_data_layer.cpp`)

`BasePrefetchingDataLayer` owns `prefetch_` (N `Batch` objects, identified
here by the ids `0..N-1`), the blocking queues `prefetch_free_` and
`prefetch_full_`, and the pointer `prefetch_current_`.  Two threads act on
this state: the worker (`InternalThreadEntry`, lines 79-110) and the consumer
(`Forward_cpu`, lines 112-127).  Each thread is decomposed into the atomic
queue operations it performs, so that every interleaving of the two threads
is a sequence of the four steps below; the deterministic fill function of the
test scenario writes the running counter `nextSeq` into the batch being
filled. -/

/-- One atomic queue operation of one of the two threads. -/
inductive PStep
  /-- Worker, `InternalThreadEntry` line 89-90: `prefetch_free_.pop()`
  followed by `load_batch(batch)` (the fill touches only the popped batch,
  which no other thread can observe until it is pushed). -/
  | wPop
  /-- Worker, line 100: `prefetch_full_.push(batch)`. -/
  | wPush
  /-- Consumer, `Forward_cpu` lines 115-117: return `prefetch_current_` to
  `prefetch_free_`. -/
  | cRel
  /-- Consumer, line 118: `prefetch_current_ = prefetch_full_.pop(...)`,
  after which the batch's payload is exposed through the tops. -/
  | cPop
deriving DecidableEq

/-- Shared state of the pipeline.  Queue entries pair a batch id with the
sequence number last written into that batch; `obs` is the ghost trace of
sequence numbers the consumer has observed, in order. -/
structure PState where
  freeq : List Nat
  fullq : List (Nat × Nat)
  wheld : Option (Nat × Nat)
  current : Option (Nat × Nat)
  nextSeq : Nat
  obs : List Nat
deriving DecidableEq

/-- State after the constructor (`base_data_layer.cpp` lines 36-45): all N
batches pushed into `prefetch_free_` in index order, both other places
empty. -/
def initState (N : Nat) : PState :=
  ⟨List.range N, [], none, none, 0, []⟩

/-- Effect of one step on the shared state; `none` when the step is not
enabled (its thread is blocked in a queue `pop`, or program order within the
thread does not allow it). -/
def stepFn (s : PState) : PStep → Option PState
  | PStep.wPop =>
    match s.wheld, s.freeq with
    | none, b :: fs =>
      some { s with freeq := fs, wheld := some (b, s.nextSeq),
                    nextSeq := s.nextSeq + 1 }
    | _, _ => none
  | PStep.wPush =>
    match s.wheld with
    | some bq => some { s with fullq := s.fullq ++ [bq], wheld := none }
    | none => none
  | PStep.cRel =>
    match s.current with
    | some (b, _) => some { s with freeq := s.freeq ++ [b], current := none }
    | none => none
  | PStep.cPop =>
    match s.current, s.fullq with
    | none, bq :: rest =>
      some { s with fullq := rest, current := some bq,
                    obs := s.obs ++ [bq.2] }
    | _, _ => none

/-- Run a schedule of steps from a state; `none` as soon as a scheduled step
is not enabled. -/
def runSteps (s : PState) : List PStep → Option PState
  | [] => some s
  | st :: rest =>
    match stepFn s st with
    | some s2 => runSteps s2 rest
    | none => none

/-- Sequence numbers currently in flight between fill and observation, oldest
first: the full queue's contents followed by the batch the worker holds. -/
def pendingSeqs (s : PState) : List Nat :=
  s.fullq.map Prod.snd ++
    (match s.wheld with
     | some bq => [bq.2]
     | none => [])

/-- The id held by an `Option` slot (`wheld` or `current`), as a list. -/
def heldIds : Option (Nat × Nat) → List Nat
  | some bq => [bq.1]
  | none => []

/-- Every place a batch id can live: the free queue, the full queue, the
worker's hands (FILLING) and the consumer's `prefetch_current_`. -/
def allBufIds (s : PState) : List Nat :=
  s.freeq ++ s.fullq.map Prod.fst ++ heldIds s.wheld ++ heldIds s.current

/-! ## Worker-loop failure model (`InternalThreadEntry`, lines 87-104)

The `try { while (!must_stop()) { pop; load_batch; push; } } catch
(boost::thread_interrupted&) {}` structure is driven by a script of events:
what the loop head and the fallible calls do at each iteration.  A
`boost::thread_interrupted` raised in `pop` or inside `load_batch` unwinds to
the catch clause, which swallows it; any other exception raised inside
`load_batch` is not caught and propagates out of `InternalThreadEntry`. -/

/-- Outcome of one iteration attempt of the worker loop. -/
inductive WEvent
/-- Check where `must_stop()` returns true at the loop head: normal loop exit. -/
  | stop
/-- Interruption `boost::thread_interrupted` raised while blocked in
  `prefetch_free_.pop()`. -/
  | popInterrupted
/-- Call `load_batch(batch)` returns normally. -/
  | fillOk
/-- Interruption `boost::thread_interrupted` raised inside `load_batch(batch)`. -/
  | fillInterrupted
  /-- Any other exception `e` raised inside `load_batch(batch)`. -/
  | fillRaised (e : String)
deriving DecidableEq

/-- How `InternalThreadEntry` terminates. -/
inductive LoopExit
  /-- The while condition became false; function returns normally. -/
  | cleanStop
/-- Exit where `boost::thread_interrupted` reached the catch clause, which swallows
  it; function returns normally, nothing logged. -/
  | interruptedExit
  /-- An exception other than `boost::thread_interrupted` escaped
  `InternalThreadEntry`. -/
  | fatal (e : String)
deriving DecidableEq

/-- Whether a loop exit is an error escaping the worker. -/
def isErrorExit : LoopExit → Bool
  | LoopExit.fatal _ => true
  | _ => false

/-- The worker loop over the free and full queues (batch ids only, since only
ownership matters here), driven by an event script.  `none` marks an
inconsistent script: an event after the loop already ended, or a fill event
while the free queue is empty (the `pop` would still be blocked). -/
def workerLoop : List Nat → List Nat → List WEvent →
    Option (List Nat × List Nat × LoopExit)
  | _, _, [] => none
  | freeq, fullq, WEvent.stop :: _ => some (freeq, fullq, LoopExit.cleanStop)
  | freeq, fullq, WEvent.popInterrupted :: _ =>
    some (freeq, fullq, LoopExit.interruptedExit)
  | freeq, fullq, WEvent.fillOk :: rest =>
    match freeq with
    | [] => none
    | b :: fs => workerLoop fs (fullq ++ [b]) rest
  | freeq, fullq, WEvent.fillInterrupted :: _ =>
    match freeq with
    | [] => none
    | _ :: fs => some (fs, fullq, LoopExit.interruptedExit)
  | freeq, fullq, WEvent.fillRaised e :: _ =>
    match freeq with
    | [] => none
    | _ :: fs => some (fs, fullq, LoopExit.fatal e)

/-! ## GPU-mode iteration ordering (`InternalThreadEntry`, lines 89-100)

One iteration of the worker loop body with `Caffe::mode() == Caffe::GPU`, as
the ordered list of its observable actions. -/

/-- Observable actions of one worker-loop iteration body. -/
inductive DevEvent
  /-- line 89: `prefetch_free_.pop()` -/
  | popFree
  /-- line 90: `load_batch(batch)` -/
  | loadBatch
  /-- line 93: `batch->data_...async_gpu_push(stream)` -/
  | asyncGpuPushData
  /-- line 95: `batch->label_...async_gpu_push(stream)` -/
  | asyncGpuPushLabel
  /-- line 97: `CUDA_CHECK(cudaStreamSynchronize(stream))` -/
  | streamSynchronize
  /-- line 100: `prefetch_full_.push(batch)` -/
  | pushFull
deriving DecidableEq

/-- The iteration body of `InternalThreadEntry` (lines 89-100) as the ordered
event list it executes, for a given mode and `output_labels_` flag. -/
def iterationEvents (gpuMode outputLabels : Bool) : List DevEvent :=
  [DevEvent.popFree, DevEvent.loadBatch]
  ++ (if gpuMode then
        [DevEvent.asyncGpuPushData]
        ++ (if outputLabels then [DevEvent.asyncGpuPushLabel] else [])
        ++ [DevEvent.streamSynchronize]
      else [])
  ++ [DevEvent.pushFull]

/-! ## Layer-facing effects (`BaseDataLayer::LayerSetUp`, `Forward_cpu` tops,
`input_layer.hpp`) -/

/-- A blob as the consumer-facing interface sees it: its shape and the
identity of the memory it references (`set_cpu_data` makes a top reference
the batch's memory, no copy). -/
structure Blob where
  shape : List Nat
  dataId : Nat
deriving DecidableEq

/-- A staging `Batch`: payload blob `data_` and label blob `label_`. -/
structure Batch where
  data_ : Blob
  label_ : Blob
deriving DecidableEq

/-- Model of `BaseDataLayer::LayerSetUp` lines 23-27: `output_labels_` is false when
`top.size() == 1` and true otherwise. -/
def outputLabelsOf (topSize : Nat) : Bool :=
  if topSize == 1 then false else true

/-- Effect of `Forward_cpu` lines 119-126 on the top blobs: `top[0]` is
reshaped like and pointed at the current batch's `data_`; if and only if
`output_labels_` is set, `top[1]` is likewise bound to `label_`. -/
def forwardTopsEffect (outputLabels : Bool) (cur : Batch)
    (top : List Blob) : List Blob :=
  let top0 := top.set 0 cur.data_
  if outputLabels then top0.set 1 cur.label_ else top0

/-- State of an `InputLayer` object: only the base-class parameter
(`input_layer.hpp` lines 21-22). -/
structure InputLayerState where
  param : LayerParameter
deriving DecidableEq

/-- Model of `InputLayer::Reshape` (`input_layer.hpp` lines 26-27): empty body. -/
def inputLayerReshape (s : InputLayerState) (bottom top : List Blob) :
    InputLayerState × List Blob × List Blob :=
  (s, bottom, top)

/-- Model of `InputLayer::Forward_cpu` (`input_layer.hpp` lines 34-35): empty body. -/
def inputLayerForwardCpu (s : InputLayerState) (bottom top : List Blob) :
    InputLayerState × List Blob × List Blob :=
  (s, bottom, top)

/-- Model of `InputLayer::Backward_cpu` (`input_layer.hpp` lines 36-37): empty body. -/
def inputLayerBackwardCpu (s : InputLayerState) (top : List Blob)
    (_propagateDown : List Bool) (bottom : List Blob) :
    InputLayerState × List Blob × List Blob :=
  (s, top, bottom)

/-- Model of `InputLayer::type` (`input_layer.hpp` line 29). -/
def inputLayerType : String := "Input"

/-- Model of `InputLayer::ExactNumBottomBlobs` (`input_layer.hpp` line 30). -/
def inputLayerExactNumBottomBlobs : Int := 0

/-- Model of `InputLayer::MinTopBlobs` (`input_layer.hpp` line 31). -/
def inputLayerMinTopBlobs : Int := 1

/-! ## Registry lemmas -/

/-- A registry is well formed when its keys are pairwise distinct; this holds
for every registry reachable through `addCreator` and is what makes
`std::map::count` return 0 or 1. -/
def WFReg (r : Registry C) : Prop := (typeList r).Nodup

theorem countType_nil (t : String) : countType (⟨[]⟩ : Registry C) t = 0 :=
  rfl

theorem countType_eq_zero_iff (r : Registry C) (t : String) :
    countType r t = 0 ↔ lookupCreator r t = none := by
  simp only [countType, lookupCreator, List.length_eq_zero,
    List.filter_eq_nil_iff, Option.map_eq_none', List.find?_eq_none,
    beq_iff_eq]

theorem one_le_countType_of_lookup (r : Registry C) (t : String) (c : C)
    (h : lookupCreator r t = some c) : 1 ≤ countType r t := by
  rcases Nat.eq_zero_or_pos (countType r t) with h0 | h1
  · rw [countType_eq_zero_iff] at h0
    rw [h0] at h
    cases h
  · exact h1

theorem filterKey_length_le_one (t : String) :
    ∀ l : List (String × C), (l.map Prod.fst).Nodup →
      (l.filter (fun e => e.1 == t)).length ≤ 1 := by
  intro l
  induction l with
  | nil => intro _; simp
  | cons a l ih =>
    intro hnd
    rw [List.map_cons, List.nodup_cons] at hnd
    by_cases ha : a.1 = t
    · have hrest : l.filter (fun e => e.1 == t) = [] := by
        rw [List.filter_eq_nil_iff]
        intro b hb hbt
        rw [beq_iff_eq] at hbt
        exact hnd.1 (ha ▸ hbt ▸ List.mem_map_of_mem Prod.fst hb)
      rw [List.filter_cons]
      simp [ha, hrest]
    · rw [List.filter_cons]
      simp only [beq_iff_eq, ha, if_false]
      exact ih hnd.2

theorem countType_eq_one_of_lookup (r : Registry C) (t : String) (c : C)
    (hwf : WFReg r) (h : lookupCreator r t = some c) :
    countType r t = 1 :=
  Nat.le_antisymm (filterKey_length_le_one t r.entries hwf)
    (one_le_countType_of_lookup r t c h)

theorem lookup_append_single (r : Registry C) (t : String) (c : C)
    (h : countType r t = 0) :
    lookupCreator (⟨r.entries ++ [(t, c)]⟩ : Registry C) t = some c := by
  have hn : r.entries.find? (fun e => e.1 == t) = none := by
    have := (countType_eq_zero_iff r t).mp h
    simpa [lookupCreator, Option.map_eq_none'] using this
  simp [lookupCreator, List.find?_append, hn]

theorem addCreator_fresh (kind : String) (r : Registry C) (t : String)
    (c : C) (h : countType r t = 0) :
    addCreator kind r t c = Except.ok ⟨r.entries ++ [(t, c)]⟩ := by
  simp [addCreator, h]

theorem countType_append (r : Registry C) (l : List (String × C))
    (t : String) :
    countType (⟨r.entries ++ l⟩ : Registry C) t
      = countType r t + (l.filter (fun e => e.1 == t)).length := by
  simp [countType, List.filter_append]

theorem registerAll_fresh (kind : String) :
    ∀ (pairs : List (String × C)) (r : Registry C),
      (∀ t ∈ pairs.map Prod.fst, countType r t = 0) →
      (pairs.map Prod.fst).Nodup →
      registerAll kind r pairs = Except.ok ⟨r.entries ++ pairs⟩ := by
  intro pairs
  induction pairs with
  | nil => intro r _ _; simp [registerAll]
  | cons p rest ih =>
    intro r hfresh hnd
    obtain ⟨t, c⟩ := p
    rw [List.map_cons, List.nodup_cons] at hnd
    have h0 : countType r t = 0 := hfresh t (by simp)
    have hstep := addCreator_fresh kind r t c h0
    have hrec :
        registerAll kind (⟨r.entries ++ [(t, c)]⟩ : Registry C) rest
          = Except.ok ⟨(r.entries ++ [(t, c)]) ++ rest⟩ := by
      apply ih
      · intro u hu
        rw [countType_append]
        have hu0 : countType r u = 0 := hfresh u (by simp [hu])
        have hut : ¬ (t = u) := fun he => hnd.1 (he ▸ hu)
        simp [hu0, hut]
      · exact hnd.2
    simp only [registerAll, hstep, hrec]
    congr 1
    simp

/-! ## Claim theorems: registry -/

/-- C3: for every registry state and every type name already present,
`AddCreator` with that name fails fatally (the duplicate `CHECK_EQ` fires
with the "already registered" message) and does not alter the existing
mapping: the previously bound factory stays bound and the set of registered
names afterwards equals the set before.  Generic in the creator type and the
"Layer"/"Solver" message word, so it covers `LayerRegistry::AddCreator` and
`SolverRegistry::AddCreator` at once. -/
theorem claim_C3_duplicate_register_fails (kind : String) (r : Registry C)
    (t : String) (c c₀ : C) (h : lookupCreator r t = some c₀) :
    addCreator kind r t c
        = Except.error (kind ++ " type " ++ t ++ " already registered.")
      ∧ applyAdd kind r t c = r
      ∧ lookupCreator (applyAdd kind r t c) t = some c₀
      ∧ typeList (applyAdd kind r t c) = typeList r := by
  have h0 : ¬ countType r t = 0 := by
    intro hz
    rw [countType_eq_zero_iff] at hz
    rw [hz] at h
    cases h
  have hadd : addCreator kind r t c
      = Except.error (kind ++ " type " ++ t ++ " already registered.") := by
    simp [addCreator, h0]
  refine ⟨hadd, ?_, ?_, ?_⟩ <;> simp [applyAdd, hadd, h]

/-- Witness for C3 at a concrete registry holding `"A"`. -/
theorem claim_C3_witness :
    lookupCreator (⟨[("A", 7)]⟩ : Registry Nat) "A" = some 7
      ∧ (addCreator "Layer" (⟨[("A", 7)]⟩ : Registry Nat) "A" 9
            = Except.error ("Layer" ++ " type " ++ "A"
                ++ " already registered.")
          ∧ applyAdd "Layer" (⟨[("A", 7)]⟩ : Registry Nat) "A" 9
            = ⟨[("A", 7)]⟩
          ∧ lookupCreator
              (applyAdd "Layer" (⟨[("A", 7)]⟩ : Registry Nat) "A" 9) "A"
            = some 7
          ∧ typeList (applyAdd "Layer" (⟨[("A", 7)]⟩ : Registry Nat) "A" 9)
            = typeList (⟨[("A", 7)]⟩ : Registry Nat)) :=
  ⟨rfl, claim_C3_duplicate_register_fails "Layer" ⟨[("A", 7)]⟩ "A" 9 7 rfl⟩

/-- C4: `CreateLayer`/`CreateSolver` with an unregistered type identifier
fails fatally before any factory is invoked — the result is the error value,
no instance is ever produced — and the fatal message enumerates the
registered identifiers (`typeListString`, the join of all keys); with a
registered identifier they invoke the bound factory once on the parameter
and return its product. -/
theorem claim_C4_create_semantics
    (rl rl₂ : Registry LayerCreator) (p p₂ : LayerParameter)
    (cl : LayerCreator)
    (rs rs₂ : Registry SolverCreator) (q q₂ : SolverParameter)
    (cs : SolverCreator)
    (h1 : countType rl p.type = 0)
    (h2 : WFReg rl₂) (h3 : lookupCreator rl₂ p₂.type = some cl)
    (h4 : countType rs q.type = 0)
    (h5 : WFReg rs₂) (h6 : lookupCreator rs₂ q₂.type = some cs) :
    CreateLayer rl p = Except.error ("Unknown layer type: " ++ p.type
        ++ " (known types: " ++ typeListString rl ++ ")")
      ∧ CreateLayer rl₂ p₂ = Except.ok (cl p₂)
      ∧ CreateSolver rs q = Except.error ("Unknown solver type: " ++ q.type
          ++ " (known types: " ++ typeListString rs ++ ")")
      ∧ CreateSolver rs₂ q₂ = Except.ok (cs q₂) := by
  refine ⟨?_, ?_, ?_, ?_⟩
  · simp [CreateLayer, h1]
  · have hc := countType_eq_one_of_lookup rl₂ p₂.type cl h2 h3
    simp [CreateLayer, hc, h3]
  · simp [CreateSolver, h4]
  · have hc := countType_eq_one_of_lookup rs₂ q₂.type cs h5 h6
    simp [CreateSolver, hc, h6]

/-- Witness for C4: an empty registry rejects `"Python"`, and a registry
holding the generated `Input` creator produces an `InputLayer` instance. -/
theorem claim_C4_witness :
    countType (⟨[]⟩ : Registry LayerCreator) "Python" = 0
      ∧ WFReg (⟨[("Input", CreatorClassLayer "Input")]⟩ :
          Registry LayerCreator)
      ∧ lookupCreator (⟨[("Input", CreatorClassLayer "Input")]⟩ :
          Registry LayerCreator) "Input" = some (CreatorClassLayer "Input")
      ∧ countType (⟨[]⟩ : Registry SolverCreator) "SGD" = 0
      ∧ WFReg (⟨[("SGD", CreatorClassSolver "SGD")]⟩ :
          Registry SolverCreator)
      ∧ lookupCreator (⟨[("SGD", CreatorClassSolver "SGD")]⟩ :
          Registry SolverCreator) "SGD" = some (CreatorClassSolver "SGD")
      ∧ (CreateLayer ⟨[]⟩ ⟨"py", "Python"⟩
            = Except.error ("Unknown layer type: " ++ "Python"
                ++ " (known types: "
                ++ typeListString (⟨[]⟩ : Registry LayerCreator) ++ ")")
          ∧ CreateLayer ⟨[("Input", CreatorClassLayer "Input")]⟩
              ⟨"in", "Input"⟩
            = Except.ok (CreatorClassLayer "Input" ⟨"in", "Input"⟩)
          ∧ CreateSolver ⟨[]⟩ ⟨"SGD"⟩
            = Except.error ("Unknown solver type: " ++ "SGD"
                ++ " (known types: "
                ++ typeListString (⟨[]⟩ : Registry SolverCreator) ++ ")")
          ∧ CreateSolver ⟨[("SGD", CreatorClassSolver "SGD")]⟩ ⟨"SGD"⟩
            = Except.ok (CreatorClassSolver "SGD" ⟨"SGD"⟩)) :=
  ⟨rfl, by simp [WFReg, typeList], rfl, rfl, by simp [WFReg, typeList], rfl,
    claim_C4_create_semantics ⟨[]⟩ ⟨[("Input", CreatorClassLayer "Input")]⟩
      ⟨"py", "Python"⟩ ⟨"in", "Input"⟩ (CreatorClassLayer "Input")
      ⟨[]⟩ ⟨[("SGD", CreatorClassSolver "SGD")]⟩ ⟨"SGD"⟩ ⟨"SGD"⟩
      (CreatorClassSolver "SGD") rfl (by simp [WFReg, typeList]) rfl rfl
      (by simp [WFReg, typeList]) rfl⟩

/-- C7: for every sequence of `AddCreator` calls with pairwise distinct
names starting from the empty registry, the chain succeeds and
`LayerTypeList`/`SolverTypeList` returns exactly the registered names — one
entry per name, no extras, no omissions, no duplicates — and the diagnostic
string is built from exactly that list. -/
theorem claim_C7_typeList_exact (kind : String)
    (pairs : List (String × C)) (hnd : (pairs.map Prod.fst).Nodup) :
    registerAll kind (⟨[]⟩ : Registry C) pairs = Except.ok ⟨pairs⟩
      ∧ typeList (⟨pairs⟩ : Registry C) = pairs.map Prod.fst
      ∧ (∀ n, n ∈ typeList (⟨pairs⟩ : Registry C) ↔ n ∈ pairs.map Prod.fst)
      ∧ (typeList (⟨pairs⟩ : Registry C)).Nodup
      ∧ typeListString (⟨pairs⟩ : Registry C)
          = joinTypes (pairs.map Prod.fst) := by
  have hreg := registerAll_fresh kind pairs (⟨[]⟩ : Registry C)
    (fun t _ => countType_nil t) hnd
  refine ⟨by simpa using hreg, rfl, fun n => Iff.rfl, ?_, rfl⟩
  simpa [typeList] using hnd

/-- Witness for C7 at the three distinct names `"A"`, `"B"`, `"C"`. -/
theorem claim_C7_witness :
    (([("A", 1), ("B", 2), ("C", 3)].map Prod.fst).Nodup
        ∧ registerAll "Layer" (⟨[]⟩ : Registry Nat)
            [("A", 1), ("B", 2), ("C", 3)]
          = Except.ok ⟨[("A", 1), ("B", 2), ("C", 3)]⟩)
      ∧ typeList (⟨[("A", 1), ("B", 2), ("C", 3)]⟩ : Registry Nat)
          = ["A", "B", "C"]
      ∧ typeListString (⟨[("A", 1), ("B", 2), ("C", 3)]⟩ : Registry Nat)
          = "A, B, C" :=
  ⟨⟨by decide,
    (claim_C7_typeList_exact "Layer" [("A", 1), ("B", 2), ("C", 3)]
      (by decide)).1⟩,
   rfl, rfl⟩

/-- C8: `REGISTER_LAYER_CLASS(T)` / `REGISTER_SOLVER_CLASS(T)` register a
factory under exactly the bare identifier `T` — the generated class name is
`T ++ "Layer"` / `T ++ "Solver"`, so the registered name is the class name
with the trailing category suffix stripped — in both the float and the
double registry, and that factory returns a newly constructed
`T##Layer`/`T##Solver` built from the given parameter.  In particular the
class whose role is `Input` registers as, and reports `type()`, `"Input"`,
while its class name is `"InputLayer"`. -/
theorem claim_C8_register_class_wiring
    (t : String) (rf rd : Registry LayerCreator)
    (sf sd : Registry SolverCreator) (p : LayerParameter)
    (q : SolverParameter)
    (h1 : countType rf t = 0) (h2 : countType rd t = 0)
    (h3 : countType sf t = 0) (h4 : countType sd t = 0) :
    RegisterLayerClass t rf rd
        = Except.ok (⟨rf.entries ++ [(t, CreatorClassLayer t)]⟩,
            ⟨rd.entries ++ [(t, CreatorClassLayer t)]⟩)
      ∧ lookupCreator (⟨rf.entries ++ [(t, CreatorClassLayer t)]⟩ :
            Registry LayerCreator) t = some (CreatorClassLayer t)
      ∧ lookupCreator (⟨rd.entries ++ [(t, CreatorClassLayer t)]⟩ :
            Registry LayerCreator) t = some (CreatorClassLayer t)
      ∧ (CreatorClassLayer t p).clsName = t ++ "Layer"
      ∧ (CreatorClassLayer t p).param = p
      ∧ RegisterSolverClass t sf sd
          = Except.ok (⟨sf.entries ++ [(t, CreatorClassSolver t)]⟩,
              ⟨sd.entries ++ [(t, CreatorClassSolver t)]⟩)
      ∧ lookupCreator (⟨sf.entries ++ [(t, CreatorClassSolver t)]⟩ :
            Registry SolverCreator) t = some (CreatorClassSolver t)
      ∧ (CreatorClassSolver t q).clsName = t ++ "Solver"
      ∧ (CreatorClassSolver t q).param = q
      ∧ inputLayerType = "Input"
      ∧ inputLayerType ++ "Layer" = "InputLayer" := by
  refine ⟨?_, lookup_append_single rf t _ h1, lookup_append_single rd t _ h2,
    rfl, rfl, ?_, lookup_append_single sf t _ h3, rfl, rfl, rfl, rfl⟩
  · simp [RegisterLayerClass, addCreator_fresh "Layer" rf t _ h1,
      addCreator_fresh "Layer" rd t _ h2]
  · simp [RegisterSolverClass, addCreator_fresh "Solver" sf t _ h3,
      addCreator_fresh "Solver" sd t _ h4]

/-- Witness for C8: registering `Input` as a layer class and `SGD` as a
solver class into empty float/double registries. -/
theorem claim_C8_witness :
    countType (⟨[]⟩ : Registry LayerCreator) "Input" = 0
      ∧ countType (⟨[]⟩ : Registry SolverCreator) "SGD" = 0
      ∧ (RegisterLayerClass "Input" ⟨[]⟩ ⟨[]⟩
            = Except.ok (⟨[("Input", CreatorClassLayer "Input")]⟩,
                ⟨[("Input", CreatorClassLayer "Input")]⟩)
          ∧ (CreatorClassLayer "Input" ⟨"in", "Input"⟩).clsName
            = "Input" ++ "Layer"
          ∧ RegisterSolverClass "SGD" ⟨[]⟩ ⟨[]⟩
            = Except.ok (⟨[("SGD", CreatorClassSolver "SGD")]⟩,
                ⟨[("SGD", CreatorClassSolver "SGD")]⟩)
          ∧ inputLayerType = "Input") :=
  ⟨rfl, rfl,
    ⟨(claim_C8_register_class_wiring "Input" ⟨[]⟩ ⟨[]⟩ ⟨[]⟩ ⟨[]⟩
        ⟨"in", "Input"⟩ ⟨"SGD"⟩ rfl rfl rfl rfl).1,
      (claim_C8_register_class_wiring "Input" ⟨[]⟩ ⟨[]⟩ ⟨[]⟩ ⟨[]⟩
        ⟨"in", "Input"⟩ ⟨"SGD"⟩ rfl rfl rfl rfl).2.2.2.1,
      (claim_C8_register_class_wiring "SGD" ⟨[]⟩ ⟨[]⟩ ⟨[]⟩ ⟨[]⟩
        ⟨"in", "Input"⟩ ⟨"SGD"⟩ rfl rfl rfl rfl).2.2.2.2.2.1,
      (claim_C8_register_class_wiring "Input" ⟨[]⟩ ⟨[]⟩ ⟨[]⟩ ⟨[]⟩
        ⟨"in", "Input"⟩ ⟨"SGD"⟩ rfl rfl rfl rfl).2.2.2.2.2.2.2.2.2.1⟩⟩

/-! ## Pipeline lemmas -/

/-- Sequence-number invariant: the observed trace followed by the in-flight
sequence numbers is exactly `0, 1, ..., nextSeq - 1`. -/
def seqInv (s : PState) : Prop :=
  s.obs ++ pendingSeqs s = List.range s.nextSeq

theorem seqInv_init (N : Nat) : seqInv (initState N) := by
  simp [seqInv, initState, pendingSeqs]

theorem seqInv_step (s s₂ : PState) (st : PStep)
    (h : stepFn s st = some s₂) (hinv : seqInv s) : seqInv s₂ := by
  cases st
  case wPop =>
    cases hw : s.wheld <;> cases hf : s.freeq <;>
      simp only [stepFn, hw, hf, Option.some.injEq, reduceCtorEq] at h
    case none.cons b fs =>
      subst h
      simp only [seqInv, pendingSeqs, hw, List.append_nil] at hinv
      simp only [seqInv, pendingSeqs, List.range_succ, ← hinv,
        List.append_assoc]
  case wPush =>
    cases hw : s.wheld <;>
      simp only [stepFn, hw, Option.some.injEq, reduceCtorEq] at h
    case some bq =>
      subst h
      simp only [seqInv, pendingSeqs, hw] at hinv ⊢
      simpa [List.append_assoc] using hinv
  case cRel =>
    cases hc : s.current <;>
      simp only [stepFn, hc, Option.some.injEq, reduceCtorEq] at h
    case some bq =>
      obtain ⟨b, sq⟩ := bq
      subst h
      simpa [seqInv, pendingSeqs] using hinv
  case cPop =>
    cases hc : s.current <;> cases hf : s.fullq <;>
      simp only [stepFn, hc, hf, Option.some.injEq, reduceCtorEq] at h
    case none.cons bq rest =>
      subst h
      simp only [seqInv, pendingSeqs, hf, List.map_cons] at hinv ⊢
      simpa [List.append_assoc] using hinv

theorem seqInv_run : ∀ (tr : List PStep) (s s₂ : PState),
    runSteps s tr = some s₂ → seqInv s → seqInv s₂ := by
  intro tr
  induction tr with
  | nil =>
    intro s s₂ h hi
    cases h
    exact hi
  | cons st rest ih =>
    intro s s₂ h hi
    unfold runSteps at h
    cases hst : stepFn s st with
    | none => rw [hst] at h; cases h
    | some s₁ =>
      rw [hst] at h
      exact ih s₁ s₂ h (seqInv_step s s₁ st hst hi)

/-- Buffer-identity invariant: the ids across free queue, full queue, worker
hands and the consumer slot are a permutation of the N ids created by the
constructor. -/
def idInv (N : Nat) (s : PState) : Prop :=
  (allBufIds s).Perm (List.range N)

theorem idInv_init (N : Nat) : idInv N (initState N) := by
  simp [idInv, allBufIds, initState, heldIds]

theorem idInv_step (N : Nat) (s s₂ : PState) (st : PStep)
    (h : stepFn s st = some s₂) (hinv : idInv N s) : idInv N s₂ := by
  have hperm : (allBufIds s₂).Perm (allBufIds s) := by
    cases st
    case wPop =>
      cases hw : s.wheld <;> cases hf : s.freeq <;>
        simp only [stepFn, hw, hf, Option.some.injEq, reduceCtorEq] at h
      case none.cons b fs =>
        subst h
        rw [List.perm_iff_count]
        intro a
        simp only [allBufIds, heldIds, hw, hf, List.count_append]
        simp [List.count_cons]
        omega
    case wPush =>
      cases hw : s.wheld <;>
        simp only [stepFn, hw, Option.some.injEq, reduceCtorEq] at h
      case some bq =>
        subst h
        rw [List.perm_iff_count]
        intro a
        simp only [allBufIds, heldIds, hw, List.count_append, List.map_append]
        simp [List.count_cons]
        omega
    case cRel =>
      cases hc : s.current <;>
        simp only [stepFn, hc, Option.some.injEq, reduceCtorEq] at h
      case some bq =>
        obtain ⟨b, sq⟩ := bq
        subst h
        rw [List.perm_iff_count]
        intro a
        simp only [allBufIds, heldIds, hc, List.count_append]
        simp [List.count_cons]
        omega
    case cPop =>
      cases hc : s.current <;> cases hf : s.fullq <;>
        simp only [stepFn, hc, hf, Option.some.injEq, reduceCtorEq] at h
      case none.cons bq rest =>
        subst h
        rw [List.perm_iff_count]
        intro a
        simp only [allBufIds, heldIds, hc, hf, List.count_append,
          List.map_cons]
        simp [List.count_cons]
        omega
  exact hperm.trans hinv

theorem idInv_run (N : Nat) : ∀ (tr : List PStep) (s s₂ : PState),
    runSteps s tr = some s₂ → idInv N s → idInv N s₂ := by
  intro tr
  induction tr with
  | nil =>
    intro s s₂ h hi
    cases h
    exact hi
  | cons st rest ih =>
    intro s s₂ h hi
    unfold runSteps at h
    cases hst : stepFn s st with
    | none => rw [hst] at h; cases h
    | some s₁ =>
      rw [hst] at h
      exact ih s₁ s₂ h (idInv_step N s s₁ st hst hi)

/-! ## Claim theorems: pipeline ordering and conservation -/

/-- C1: with the deterministic fill writing the running counter into each
batch it fills, every interleaving of worker and consumer steps makes the
consumer observe sequence numbers `0, 1, 2, ...` — strictly increasing, no
repeats, no gaps — for every number M of consumer `pop`s, in particular for
M greater than the prefetch depth, where every observation after the first N
comes from a recycled, refilled buffer: the full queue hands batches over in
exactly fill-and-publish order. -/
theorem claim_C1_fifo_order (N : Nat) (tr : List PStep) (s : PState)
    (h : runSteps (initState N) tr = some s) :
    s.obs = List.range s.obs.length
      ∧ s.obs.Nodup
      ∧ s.obs.Pairwise (· < ·) := by
  have hinv := seqInv_run tr (initState N) s h (seqInv_init N)
  unfold seqInv at hinv
  have hlen : s.obs.length ≤ s.nextSeq := by
    have hlen₂ := congrArg List.length hinv
    simp only [List.length_append, List.length_range] at hlen₂
    omega
  have hobs : s.obs = List.range s.obs.length := by
    have htake := congrArg (List.take s.obs.length) hinv
    rw [List.take_left, List.take_range, Nat.min_eq_left hlen] at htake
    exact htake
  exact ⟨hobs, by rw [hobs]; exact List.nodup_range _,
    by rw [hobs]; exact List.pairwise_lt_range _⟩

/-- Witness for C1: depth N = 2, three consumer observations (M = 3 greater
than N), the third coming from recycled buffer 0. -/
theorem claim_C1_witness :
    runSteps (initState 2)
        [PStep.wPop, PStep.wPush, PStep.wPop, PStep.wPush, PStep.cPop,
         PStep.cRel, PStep.cPop, PStep.cRel, PStep.wPop, PStep.wPush,
         PStep.cPop]
      = some ⟨[1], [], none, some (0, 2), 3, [0, 1, 2]⟩
    ∧ ((⟨[1], [], none, some (0, 2), 3, [0, 1, 2]⟩ : PState).obs
          = List.range (⟨[1], [], none, some (0, 2), 3,
              [0, 1, 2]⟩ : PState).obs.length
        ∧ (⟨[1], [], none, some (0, 2), 3,
            [0, 1, 2]⟩ : PState).obs.Nodup
        ∧ (⟨[1], [], none, some (0, 2), 3,
            [0, 1, 2]⟩ : PState).obs.Pairwise (· < ·)) :=
  ⟨rfl,
    claim_C1_fifo_order 2
      [PStep.wPop, PStep.wPush, PStep.wPop, PStep.wPush, PStep.cPop,
       PStep.cRel, PStep.cPop, PStep.cRel, PStep.wPop, PStep.wPush,
       PStep.cPop]
      ⟨[1], [], none, some (0, 2), 3, [0, 1, 2]⟩ rfl⟩

/-- C2: after construction exactly N staging batches exist, all in the free
queue, none current, none held; and at every reachable state the ids across
free queue, full queue, worker hands (FILLING) and `prefetch_current_` are a
permutation of those N ids — their total count is exactly N, nothing is
created or destroyed, the four steps only move them around. -/
theorem claim_C2_buffer_conservation (N : Nat) (tr : List PStep) (s : PState)
    (h : runSteps (initState N) tr = some s) :
    (initState N).freeq = List.range N
      ∧ (initState N).fullq = []
      ∧ (initState N).wheld = none
      ∧ (initState N).current = none
      ∧ (allBufIds (initState N)).length = N
      ∧ (allBufIds s).Perm (List.range N)
      ∧ (allBufIds s).length = N := by
  have hinv := idInv_run N tr (initState N) s h (idInv_init N)
  refine ⟨rfl, rfl, rfl, rfl, ?_, hinv, ?_⟩
  · simp [allBufIds, initState, heldIds]
  · rw [hinv.length_eq, List.length_range]

/-- Witness for C2: depth N = 3, a schedule ending with the worker mid-fill;
the ids 2, 0 (free), 1 (FILLING) are a permutation of 0, 1, 2. -/
theorem claim_C2_witness :
    runSteps (initState 3)
        [PStep.wPop, PStep.wPush, PStep.cPop, PStep.cRel, PStep.wPop]
      = some ⟨[2, 0], [], some (1, 1), none, 2, [0]⟩
    ∧ ((initState 3).freeq = List.range 3
        ∧ (initState 3).fullq = []
        ∧ (initState 3).wheld = none
        ∧ (initState 3).current = none
        ∧ (allBufIds (initState 3)).length = 3
        ∧ (allBufIds ⟨[2, 0], [], some (1, 1), none, 2, [0]⟩).Perm
            (List.range 3)
        ∧ (allBufIds ⟨[2, 0], [], some (1, 1), none, 2, [0]⟩).length = 3) :=
  ⟨rfl,
    claim_C2_buffer_conservation 3
      [PStep.wPop, PStep.wPush, PStep.cPop, PStep.cRel, PStep.wPop]
      ⟨[2, 0], [], some (1, 1), none, 2, [0]⟩ rfl⟩

/-! ## Worker-loop failure lemmas -/

theorem workerLoop_fillOk_replicate :
    ∀ (k : Nat) (freeq fullq : List Nat) (script : List WEvent),
      k ≤ freeq.length →
      workerLoop freeq fullq (List.replicate k WEvent.fillOk ++ script)
        = workerLoop (freeq.drop k) (fullq ++ freeq.take k) script := by
  intro k
  induction k with
  | zero => intro freeq fullq script _; simp
  | succ k ih =>
    intro freeq fullq script hk
    cases freeq with
    | nil => simp at hk
    | cons b fs =>
      rw [List.replicate_succ, List.cons_append]
      show workerLoop fs (fullq ++ [b])
          (List.replicate k WEvent.fillOk ++ script) = _
      rw [ih fs (fullq ++ [b]) script (by simpa using hk)]
      simp [List.append_assoc]

/-- C5: in the worker loop, after any k successful iterations, an
interruption raised while blocked in the free-queue `pop` or inside
`load_batch` ends `InternalThreadEntry` through the catch clause — a clean,
non-error exit — while any other exception from `load_batch` escapes as a
fatal error; in both failure cases the batch being filled is never pushed to
the full queue (the published batches are exactly the k previously completed
ones), and a `must_stop` at the loop head gives the clean stop. -/
theorem claim_C5_worker_failure_semantics (k : Nat)
    (freeq fullq : List Nat) (rest : List WEvent) (e : String)
    (b : Nat) (fs : List Nat)
    (hdrop : freeq.drop k = b :: fs)
    (hnd : (freeq ++ fullq).Nodup) :
    (workerLoop freeq fullq
          (List.replicate k WEvent.fillOk ++ WEvent.fillInterrupted :: rest)
        = some (fs, fullq ++ freeq.take k, LoopExit.interruptedExit)
      ∧ isErrorExit LoopExit.interruptedExit = false)
    ∧ (workerLoop freeq fullq
          (List.replicate k WEvent.fillOk ++ WEvent.fillRaised e :: rest)
        = some (fs, fullq ++ freeq.take k, LoopExit.fatal e)
      ∧ isErrorExit (LoopExit.fatal e) = true
      ∧ b ∉ fullq ++ freeq.take k)
    ∧ (workerLoop freeq fullq
          (List.replicate k WEvent.fillOk ++ WEvent.popInterrupted :: rest)
        = some (freeq.drop k, fullq ++ freeq.take k,
            LoopExit.interruptedExit)
      ∧ isErrorExit LoopExit.interruptedExit = false)
    ∧ workerLoop freeq fullq
          (List.replicate k WEvent.fillOk ++ WEvent.stop :: rest)
        = some (freeq.drop k, fullq ++ freeq.take k, LoopExit.cleanStop) := by
  have hk : k ≤ freeq.length := by
    have hlen := congrArg List.length hdrop
    rw [List.length_drop] at hlen
    simp only [List.length_cons] at hlen
    omega
  have hrw := fun script =>
    workerLoop_fillOk_replicate k freeq fullq script hk
  have hbfree : b ∈ freeq := by
    refine List.mem_of_mem_drop (n := k) ?_
    rw [hdrop]
    exact List.mem_cons_self b fs
  have hsplit := List.nodup_append.mp hnd
  have hbfull : b ∉ fullq := fun hb => hsplit.2.2 hbfree hb
  have hbtake : b ∉ freeq.take k := by
    intro hb
    have htd : (freeq.take k ++ freeq.drop k).Nodup := by
      rw [List.take_append_drop]
      exact hsplit.1
    exact (List.nodup_append.mp htd).2.2 hb
      (by rw [hdrop]; exact List.mem_cons_self b fs)
  have hbnot : b ∉ fullq ++ freeq.take k := by
    rw [List.mem_append]
    rintro (hb | hb)
    · exact hbfull hb
    · exact hbtake hb
  refine ⟨⟨?_, rfl⟩, ⟨?_, rfl, hbnot⟩, ⟨?_, rfl⟩, ?_⟩ <;>
    rw [hrw] <;> rw [hdrop] <;> rfl

/-- Witness for C5: one successful iteration (k = 1), then failure while
filling buffer 7; buffer 7 is absent from the published queue `[3, 5]`. -/
theorem claim_C5_witness :
    ([5, 7, 9] : List Nat).drop 1 = 7 :: [9]
      ∧ (([5, 7, 9] ++ [3] : List Nat)).Nodup
      ∧ ((workerLoop [5, 7, 9] [3]
              (List.replicate 1 WEvent.fillOk
                ++ WEvent.fillInterrupted :: [])
            = some ([9], [3] ++ ([5, 7, 9] : List Nat).take 1,
                LoopExit.interruptedExit)
          ∧ isErrorExit LoopExit.interruptedExit = false)
        ∧ (workerLoop [5, 7, 9] [3]
              (List.replicate 1 WEvent.fillOk
                ++ WEvent.fillRaised "io failure" :: [])
            = some ([9], [3] ++ ([5, 7, 9] : List Nat).take 1,
                LoopExit.fatal "io failure")
          ∧ isErrorExit (LoopExit.fatal "io failure") = true
          ∧ 7 ∉ [3] ++ (([5, 7, 9] : List Nat)).take 1)
        ∧ (workerLoop [5, 7, 9] [3]
              (List.replicate 1 WEvent.fillOk
                ++ WEvent.popInterrupted :: [])
            = some (([5, 7, 9] : List Nat).drop 1,
                [3] ++ ([5, 7, 9] : List Nat).take 1,
                LoopExit.interruptedExit)
          ∧ isErrorExit LoopExit.interruptedExit = false)
        ∧ workerLoop [5, 7, 9] [3]
              (List.replicate 1 WEvent.fillOk ++ WEvent.stop :: [])
            = some (([5, 7, 9] : List Nat).drop 1,
                [3] ++ ([5, 7, 9] : List Nat).take 1,
                LoopExit.cleanStop)) :=
  ⟨rfl, by decide,
    claim_C5_worker_failure_semantics 1 [5, 7, 9] [3] [] "io failure" 7 [9]
      rfl (by decide)⟩

/-- C6: in every GPU-mode iteration of the worker loop, whether or not
labels are enabled, the asynchronous device pushes of the payload (and of
the label when enabled) happen before the stream synchronization, the
synchronization happens before the full-queue push, and the full-queue push
is the unique last action: the buffer is never published READY before the
device copy has completed. -/
theorem claim_C6_gpu_sync_before_publish :
    (DevEvent.streamSynchronize ∈ iterationEvents true true
      ∧ (iterationEvents true true).indexOf DevEvent.asyncGpuPushData
          < (iterationEvents true true).indexOf DevEvent.streamSynchronize
      ∧ (iterationEvents true true).indexOf DevEvent.asyncGpuPushLabel
          < (iterationEvents true true).indexOf DevEvent.streamSynchronize
      ∧ (iterationEvents true true).indexOf DevEvent.streamSynchronize
          < (iterationEvents true true).indexOf DevEvent.pushFull
      ∧ (iterationEvents true true).count DevEvent.pushFull = 1
      ∧ (iterationEvents true true).getLast? = some DevEvent.pushFull)
    ∧ (DevEvent.streamSynchronize ∈ iterationEvents true false
      ∧ (iterationEvents true false).indexOf DevEvent.asyncGpuPushData
          < (iterationEvents true false).indexOf DevEvent.streamSynchronize
      ∧ DevEvent.asyncGpuPushLabel ∉ iterationEvents true false
      ∧ (iterationEvents true false).indexOf DevEvent.streamSynchronize
          < (iterationEvents true false).indexOf DevEvent.pushFull
      ∧ (iterationEvents true false).count DevEvent.pushFull = 1
      ∧ (iterationEvents true false).getLast? = some DevEvent.pushFull) := by
  decide

/-- C9: `output_labels_` is set to false exactly when one top blob is
supplied and to true for any larger number; a consumer step then rebinds
`top[1]` to the current batch's label if and only if the flag is set, and
with the flag clear it touches only `top[0]` — every other top is left
exactly as it was. -/
theorem claim_C9_output_labels (n : Nat) (cur : Batch) (top : List Blob)
    (i : Nat) (hlen : 2 ≤ top.length) (hi : i ≠ 0) :
    (outputLabelsOf n = false ↔ n = 1)
      ∧ (1 < n → outputLabelsOf n = true)
      ∧ (forwardTopsEffect true cur top)[0]? = some cur.data_
      ∧ (forwardTopsEffect true cur top)[1]? = some cur.label_
      ∧ (∀ j, j ≠ 0 → j ≠ 1 →
          (forwardTopsEffect true cur top)[j]? = top[j]?)
      ∧ (forwardTopsEffect false cur top)[0]? = some cur.data_
      ∧ (forwardTopsEffect false cur top)[i]? = top[i]? := by
  have h0 : 0 < top.length := by omega
  have h1 : 1 < top.length := by omega
  refine ⟨?_, ?_, ?_, ?_, ?_, ?_, ?_⟩
  · constructor
    · intro h
      by_contra hn
      simp [outputLabelsOf, hn] at h
    · intro h
      simp [outputLabelsOf, h]
  · intro h
    have : ¬ (n == 1) = true := by simp; omega
    simp [outputLabelsOf, this]
  · have hne : (1 : Nat) ≠ 0 := by omega
    simp only [forwardTopsEffect]
    rw [if_pos trivial, List.getElem?_set_ne hne, List.getElem?_set_self h0]
  · simp only [forwardTopsEffect]
    rw [if_pos trivial, List.getElem?_set_self (by simpa using h1)]
  · intro j hj0 hj1
    simp only [forwardTopsEffect]
    rw [if_pos trivial, List.getElem?_set_ne (fun h => hj1 h.symm),
      List.getElem?_set_ne (fun h => hj0 h.symm)]
  · simp only [forwardTopsEffect]
    rw [if_neg (by decide), List.getElem?_set_self h0]
  · simp only [forwardTopsEffect]
    rw [if_neg (by decide), List.getElem?_set_ne (fun h => hi h.symm)]

/-- Witness for C9 at two tops and a concrete batch. -/
theorem claim_C9_witness :
    2 ≤ ([⟨[1], 10⟩, ⟨[1], 11⟩] : List Blob).length
      ∧ (3 : Nat) ≠ 0
      ∧ ((outputLabelsOf 2 = false ↔ (2 : Nat) = 1)
        ∧ (1 < 2 → outputLabelsOf 2 = true)
        ∧ (forwardTopsEffect true ⟨⟨[4, 3], 20⟩, ⟨[4], 21⟩⟩
            [⟨[1], 10⟩, ⟨[1], 11⟩])[0]? = some ⟨[4, 3], 20⟩
        ∧ (forwardTopsEffect true ⟨⟨[4, 3], 20⟩, ⟨[4], 21⟩⟩
            [⟨[1], 10⟩, ⟨[1], 11⟩])[1]? = some ⟨[4], 21⟩
        ∧ (∀ j, j ≠ 0 → j ≠ 1 →
            (forwardTopsEffect true ⟨⟨[4, 3], 20⟩, ⟨[4], 21⟩⟩
              [⟨[1], 10⟩, ⟨[1], 11⟩])[j]?
              = ([⟨[1], 10⟩, ⟨[1], 11⟩] : List Blob)[j]?)
        ∧ (forwardTopsEffect false ⟨⟨[4, 3], 20⟩, ⟨[4], 21⟩⟩
            [⟨[1], 10⟩, ⟨[1], 11⟩])[0]? = some ⟨[4, 3], 20⟩
        ∧ (forwardTopsEffect false ⟨⟨[4, 3], 20⟩, ⟨[4], 21⟩⟩
            [⟨[1], 10⟩, ⟨[1], 11⟩])[3]?
            = ([⟨[1], 10⟩, ⟨[1], 11⟩] : List Blob)[3]?) :=
  ⟨by decide, by decide,
    claim_C9_output_labels 2 ⟨⟨[4, 3], 20⟩, ⟨[4], 21⟩⟩
      [⟨[1], 10⟩, ⟨[1], 11⟩] 3 (by decide) (by decide)⟩

/-- C10: `InputLayer`'s `Forward_cpu`, `Backward_cpu` and `Reshape` have
empty bodies: for every input they return the layer state and every bottom
and top blob unchanged; moreover the layer requires exactly zero bottom
blobs and at least one top blob, and reports type `"Input"`. -/
theorem claim_C10_input_layer_noop (s : InputLayerState)
    (bottom top : List Blob) (pd : List Bool) :
    inputLayerForwardCpu s bottom top = (s, bottom, top)
      ∧ inputLayerBackwardCpu s top pd bottom = (s, top, bottom)
      ∧ inputLayerReshape s bottom top = (s, bottom, top)
      ∧ inputLayerExactNumBottomBlobs = 0
      ∧ inputLayerMinTopBlobs = 1
      ∧ inputLayerType = "Input" :=
  ⟨rfl, rfl, rfl, rfl, rfl, rfl⟩

end CaffeSpec
